import Mathlib

/-!
Shallow embedding of the browser-resident activity-tracking engine
(background service worker, feature-complete variant): device identity,
auth gating, per-tab URL dedup cache, hybrid heartbeat scheduler, and the
reporter paths (heartbeat, page-activity, focus, logout).

Host nondeterminism (storage write outcomes, the generated UUID, window and
script query results, fetch outcomes, JSON parse outcomes) is supplied
through explicit oracle parameters.  Each operation is a function from the
engine state (plus oracles) to the successor state and an ordered trace of
observable actions (cache writes, network calls, notifications, logs).
-/

namespace ChromeExt

/-! Section: JavaScript value model (truthiness, field access) -/

inductive JsVal where
  | vUndefined
  | vNull
  | vBool (b : Bool)
  | vNum (n : Int)
  | vStr (s : String)
  | vObj (fields : List (String × JsVal))

/-- JavaScript truthiness of a value. -/
def JsVal.truthy : JsVal → Bool
  | .vUndefined => false
  | .vNull => false
  | .vBool b => b
  | .vNum n => decide (n ≠ 0)
  | .vStr s => decide (s ≠ "")
  | .vObj _ => true

/-- Property access `v[k]`: `undefined` on a non-object or a missing key. -/
def JsVal.getField (v : JsVal) (k : String) : JsVal :=
  match v with
  | .vObj fs =>
    match fs.find? (fun p => p.1 = k) with
    | some p => p.2
    | none => .vUndefined
  | _ => .vUndefined

/-- Test `typeof v === "string"`. -/
def JsVal.isStringVal : JsVal → Bool
  | .vStr _ => true
  | _ => false

/-- The underlying string of a string value (dummy `""` otherwise). -/
def JsVal.asString : JsVal → String
  | .vStr s => s
  | _ => ""

/-- Model of `String.prototype.trim`: strip leading and trailing whitespace.
(Executable re-implementation over the character list so that concrete
instances evaluate in the kernel.) -/
def jsTrim (s : String) : String :=
  String.mk (((s.data.dropWhile Char.isWhitespace).reverse.dropWhile
    Char.isWhitespace).reverse)

/-- Model of `String.prototype.slice(0, n)`. -/
def jsSlice (s : String) (n : Nat) : String :=
  String.mk (s.data.take n)

/-! Section: device identity (`getOrCreateDeviceId`) -/

/-- One character class `[0-9a-f]` of the UUID regex, case-insensitive. -/
def isUuidHexChar (c : Char) : Bool :=
  (decide (48 ≤ c.toNat) && decide (c.toNat ≤ 57)) ||
  (decide (97 ≤ c.toNat) && decide (c.toNat ≤ 102)) ||
  (decide (65 ≤ c.toNat) && decide (c.toNat ≤ 70))

/-- Split a character list at every `-` (the separator of the UUID shape). -/
def splitOnDash : List Char → List (List Char)
  | [] => [[]]
  | c :: rest =>
    let r := splitOnDash rest
    if c = '-' then [] :: r
    else
      match r with
      | g :: gs => (c :: g) :: gs
      | [] => [[c]]

/-- The anchored test
`/^[0-9a-f]{8}-[0-9a-f]{4}-[0-9a-f]{4}-[0-9a-f]{4}-[0-9a-f]{12}$/i`:
exactly five dash-separated hex groups of lengths 8-4-4-4-12.  (A dash is
not a hex character, so group-wise splitting is exact.) -/
def matchesUuidShape (s : String) : Bool :=
  match splitOnDash s.data with
  | [a, b, c, d, e] =>
    decide (a.length = 8) && decide (b.length = 4) && decide (c.length = 4) &&
    decide (d.length = 4) && decide (e.length = 12) &&
    a.all isUuidHexChar && b.all isUuidHexChar && c.all isUuidHexChar &&
    d.all isUuidHexChar && e.all isUuidHexChar
  | _ => false

/-- The durable key-value store slice used by the engine
(`chrome.storage.local`): the auth token and the device id.  `none` models
an absent key. -/
structure Storage where
  authToken : Option String
  deviceId : Option String
deriving DecidableEq, Repr

/-- JS truthiness of an optional string (`undefined` and `""` are falsy). -/
def truthyOptStr : Option String → Bool
  | some s => decide (s ≠ "")
  | none => false

/-- Function `getOrCreateDeviceId`: read the stored id; if present (truthy), trim it
and accept the trimmed value when it matches the UUID shape; otherwise
generate a fresh UUID (`fresh` oracle) and persist it, resolving with the
fresh value even when the durable write fails (`writeFails` oracle).
Returns the resolved id and the updated store. -/
def getOrCreateDeviceId (st : Storage) (fresh : String) (writeFails : Bool) :
    String × Storage :=
  match st.deviceId with
  | some raw =>
    if raw ≠ "" then
      let storedId := jsTrim raw
      if matchesUuidShape storedId then (storedId, st)
      else if writeFails then (fresh, st)
      else (fresh, { st with deviceId := some fresh })
    else if writeFails then (fresh, st)
    else (fresh, { st with deviceId := some fresh })
  | none =>
    if writeFails then (fresh, st)
    else (fresh, { st with deviceId := some fresh })

/-! Section: payloads and observable actions -/

/-- The `details` argument of `sendHeartbeat` (possibly-absent fields). -/
structure Details where
  current_app : Option String := none
  current_page : Option String := none
  current_url : Option String := none
  focused : Option Bool := none
deriving DecidableEq, Repr

/-- Keep an optional string field only when truthy (the `details.x && {x}`
spread pattern). -/
def optIfTruthy : Option String → Option String
  | some s => if s ≠ "" then some s else none
  | none => none

/-- Body of a `POST /device/heartbeat` call. -/
structure HeartbeatPayload where
  device_id : String
  device_name : String
  device_type : String
  current_app : Option String
  current_page : Option String
  current_url : Option String
  focused : Option Bool
deriving DecidableEq, Repr

/-- Payload assembly in `sendHeartbeat`: mandatory identity fields plus the
optional fields, each included only when truthy (`focused` only when it is
a boolean, so `false` is included). -/
def mkHeartbeatPayload (deviceId : String) (d : Details) : HeartbeatPayload :=
  { device_id := deviceId
    device_name := "browser-chrome"
    device_type := "browser"
    current_app := optIfTruthy d.current_app
    current_page := optIfTruthy d.current_page
    current_url := optIfTruthy d.current_url
    focused := d.focused }

/-- Body of a `POST /active` call (the focus path sends only `device` and
`focused`; the tab path also sends title, url and capped content). -/
structure ActiveBody where
  device : String
  title : Option String
  url : Option String
  content : Option String
  focused : Bool
deriving DecidableEq, Repr

/-- Observable actions, in program order within one operation. -/
inductive Action where
  | cacheWrite (tabId : Nat) (url : String)
  | netHeartbeat (p : HeartbeatPayload)
  | netActive (b : ActiveBody)
  | netLogout (deviceName : String)
  | execScript (tabId : Nat)
  | notify (title : String) (message : String)
  | logError (tag : String)
deriving DecidableEq, Repr

/-- Does an action hit the network? -/
def isNetCall : Action → Bool
  | .netHeartbeat _ => true
  | .netActive _ => true
  | .netLogout _ => true
  | _ => false

/-! Section: heartbeat scheduler (`scheduleHeartbeat` / `clearHeartbeat`) -/

/-- Scheduler state: the durable alarm (`chrome.alarms`), the stored
in-memory interval handle (`heartbeatIntervalId`), the intervals currently
registered with the host, and a counter supplying fresh handle values. -/
structure SchedState where
  alarmArmed : Bool
  heartbeatIntervalId : Option Nat
  activeIntervals : List Nat
  nextTimerId : Nat
deriving DecidableEq, Repr

def initSched : SchedState :=
  { alarmArmed := false, heartbeatIntervalId := none,
    activeIntervals := [], nextTimerId := 0 }

/-- Function `scheduleHeartbeat`: (re-)arm the one-minute durable alarm, and start
the 1-second in-memory interval only when the stored handle is `null`. -/
def scheduleHeartbeat (s : SchedState) : SchedState :=
  let s1 := { s with alarmArmed := true }
  match s1.heartbeatIntervalId with
  | none =>
    { s1 with heartbeatIntervalId := some s1.nextTimerId,
              activeIntervals := s1.nextTimerId :: s1.activeIntervals,
              nextTimerId := s1.nextTimerId + 1 }
  | some _ => s1

/-- Function `clearHeartbeat`: disarm the alarm; if a handle is stored, clear that
interval and reset the handle to `null`. -/
def clearHeartbeat (s : SchedState) : SchedState :=
  let s1 := { s with alarmArmed := false }
  match s1.heartbeatIntervalId with
  | some h =>
    { s1 with activeIntervals := s1.activeIntervals.erase h,
              heartbeatIntervalId := none }
  | none => s1

inductive SchedOp where
  | start
  | stop
deriving DecidableEq, Repr

def applySchedOp (s : SchedState) : SchedOp → SchedState
  | .start => scheduleHeartbeat s
  | .stop => clearHeartbeat s

def applySchedOps (s : SchedState) (ops : List SchedOp) : SchedState :=
  ops.foldl applySchedOp s

/-! Section: engine state, host oracles -/

/-- A tab as seen by the listeners (`url` / `title` may be `undefined`). -/
structure Tab where
  url : Option String
  title : Option String
deriving DecidableEq, Repr

/-- A tab inside a populated window snapshot. -/
structure WTab where
  title : Option String
  url : Option String
  active : Bool
deriving DecidableEq, Repr

/-- A window snapshot from `chrome.windows.getCurrent({populate: true})`. -/
structure Window where
  tabs : Option (List WTab)
deriving DecidableEq, Repr

/-- Result of the injected content-extraction function. -/
structure ScriptResult where
  title : String
  url : String
  content : String
deriving DecidableEq, Repr

/-- Outcome of `chrome.scripting.executeScript`'s callback. -/
inductive ScriptOutcome where
  | hostError
  | noResult
  | ok (r : ScriptResult)
deriving DecidableEq, Repr

/-- Host/network oracle for one operation: the UUID `crypto.randomUUID`
would generate, whether the durable write fails, the window and script
query outcomes, and the heartbeat fetch outcome (rejection, HTTP ok flag,
status, body text, and the `JSON.parse` results for the heartbeat and the
`/active` responses, `none` meaning the parse throws). -/
structure Env where
  fresh : String
  writeFails : Bool
  win : Option Window
  script : ScriptOutcome
  fetchRejects : Bool
  respOk : Bool
  respStatus : Nat
  respText : String
  parsed : Option JsVal
  activeParsed : Option JsVal

/-- In-memory engine state (module-level mutable variables plus the durable
store). -/
structure EngState where
  isAuthenticated : Bool
  isWindowFocused : Bool
  lastURLMap : List (Nat × String)
  sched : SchedState
  storage : Storage

/-- State at service-worker start: unauthenticated, focused, empty dedup
cache, no timers; the durable store carries whatever persisted. -/
def initState (st : Storage) : EngState :=
  { isAuthenticated := false, isWindowFocused := true, lastURLMap := [],
    sched := initSched, storage := st }

/-- Lookup `lastURLMap.get(tabId)`. -/
def mapGet (m : List (Nat × String)) (k : Nat) : Option String :=
  match m.find? (fun p => p.1 = k) with
  | some p => some p.2
  | none => none

/-- Update `lastURLMap.set(tabId, url)`. -/
def mapSet (m : List (Nat × String)) (k : Nat) (v : String) :
    List (Nat × String) :=
  (k, v) :: m.filter (fun p => p.1 ≠ k)

/-! Section: reporter (`sendHeartbeat`, `sendLogout`) -/

/-- The message of the error thrown on a non-ok heartbeat response:
`HTTP error! status: <status>, response: <responseText>`. -/
def httpErrorMsg (status : Nat) (responseText : String) : String :=
  "HTTP error! status: " ++ toString status ++ ", response: " ++ responseText

/-- Response handling in `sendHeartbeat` after the fetch resolves: read the
body text; throw a descriptive error on a non-ok status; otherwise parse
the body (an empty body stands for `\x7b\x7d`), and treat a parse failure
as the generic success value `\x7b success: true \x7d`. -/
def processHeartbeatResponse (respOk : Bool) (status : Nat)
    (responseText : String) (parsed : Option JsVal) : Except String JsVal :=
  if !respOk then .error (httpErrorMsg status responseText)
  else
    match (if responseText = "" then some (JsVal.vObj []) else parsed) with
    | some d => .ok d
    | none => .ok (JsVal.vObj [("success", JsVal.vBool true)])

/-- Function `sendHeartbeat(details)`: skip when not authenticated; skip when no
truthy token; otherwise resolve the device id, assemble the payload and
POST it.  Returns the successor state, the action trace, and whether the
returned promise rejects (fetch rejection, or the thrown HTTP error, both
logged and re-thrown). -/
def sendHeartbeat (s : EngState) (env : Env) (d : Details) :
    EngState × List Action × Bool :=
  if !s.isAuthenticated then (s, [], false)
  else if !truthyOptStr s.storage.authToken then (s, [], false)
  else
    let gen := getOrCreateDeviceId s.storage env.fresh env.writeFails
    let s1 := { s with storage := gen.2 }
    let payload := mkHeartbeatPayload gen.1 d
    if env.fetchRejects then
      (s1, [Action.netHeartbeat payload, Action.logError "heartbeat-request",
            Action.logError "heartbeat-unexpected"], true)
    else
      match processHeartbeatResponse env.respOk env.respStatus env.respText
          env.parsed with
      | .error _ =>
        (s1, [Action.netHeartbeat payload, Action.logError "heartbeat-request",
              Action.logError "heartbeat-unexpected"], true)
      | .ok _ => (s1, [Action.netHeartbeat payload], false)

/-- Function `sendLogout`: fire-and-forget `POST /device/logout` when a truthy token
is stored (failures only logged). -/
def sendLogout (s : EngState) : List Action :=
  if truthyOptStr s.storage.authToken then [Action.netLogout "browser-chrome"]
  else []

/-! Section: activity observer (`processTabUpdate` and friends) -/

/-- The notification gate on a parsed `/active` response `data`:
`data && data.show_notification && data.response &&
typeof data.response === "string" && data.response.trim()`. -/
def shouldShowNotification (data : JsVal) : Bool :=
  data.truthy && (data.getField "show_notification").truthy &&
  (data.getField "response").truthy &&
  (data.getField "response").isStringVal &&
  decide (jsTrim ((data.getField "response").asString) ≠ "")

/-- The notification rendered (title and message) for a parsed `/active`
response, if any: `sendNotification("Thoth", data.response.trim())`. -/
def notificationFor (data : JsVal) : Option (String × String) :=
  if shouldShowNotification data then
    some ("Thoth", jsTrim ((data.getField "response").asString))
  else none

/-- The content-extraction-then-submit chain started by `processTabUpdate`:
inject the extraction script; on a host error log and stop; on a missing
result stop silently; otherwise build the capped payload, resolve token
and device id, POST `/active`, and handle the parsed response's
notification hint (a parse failure only logged). -/
def contentChain (s : EngState) (tabId : Nat) (tab : Tab)
    (currentURL : String) (env : Env) : EngState × List Action :=
  match env.script with
  | .hostError => (s, [Action.execScript tabId, Action.logError "executeScript"])
  | .noResult => (s, [Action.execScript tabId])
  | .ok r =>
    let titleP := if r.title ≠ "" then r.title else
      (match tab.title with | some t => t | none => "")
    let urlP := if r.url ≠ "" then r.url else currentURL
    let contentP := jsSlice r.content 8000
    let gen := getOrCreateDeviceId s.storage env.fresh env.writeFails
    let s1 := { s with storage := gen.2 }
    if truthyOptStr s1.storage.authToken && decide (gen.1 ≠ "") then
      let post := Action.netActive
        { device := gen.1, title := some titleP, url := some urlP,
          content := some contentP, focused := s1.isWindowFocused }
      let notifTr : List Action :=
        match env.activeParsed with
        | none => [Action.logError "parse-active"]
        | some d =>
          match notificationFor d with
          | some nm => [Action.notify nm.1 nm.2]
          | none => []
      (s1, Action.execScript tabId :: post :: notifTr)
    else (s1, [Action.execScript tabId])

/-- Function `processTabUpdate(tabId, tab)`: no-op when unauthenticated; report iff
the tab's URL is truthy and differs from the dedup-cache entry (an absent
entry differs from everything): record the URL, send a heartbeat carrying
URL/title/focus, and start the content chain. -/
def processTabUpdate (s : EngState) (tabId : Nat) (tab : Tab) (env : Env) :
    EngState × List Action :=
  if !s.isAuthenticated then (s, [])
  else
    match tab.url with
    | none => (s, [])
    | some u =>
      if u ≠ "" ∧ some u ≠ mapGet s.lastURLMap tabId then
        let s1 := { s with lastURLMap := mapSet s.lastURLMap tabId u }
        let hb := sendHeartbeat s1 env
          { current_app := some "chrome", current_page := tab.title,
            current_url := some u, focused := some s1.isWindowFocused }
        let ac := contentChain hb.1 tabId tab u env
        (ac.1, Action.cacheWrite tabId u :: (hb.2.1 ++ ac.2))
      else (s, [])

/-- Function `heartbeatWithActiveTab` (the tick body): query the current window; on
an error or a missing window log and fall back to a bare
`current_app: "chrome"` heartbeat (failures caught and logged); otherwise
compose the aggregated `current_app` string, attach the active tab's
title/url and the focus flag, and send (failures caught and logged). -/
def heartbeatWithActiveTab (s : EngState) (env : Env) :
    EngState × List Action :=
  match env.win with
  | none =>
    let hb := sendHeartbeat s env { current_app := some "chrome" }
    (hb.1, Action.logError "windows.getCurrent" ::
      (hb.2.1 ++ (if hb.2.2 then [Action.logError "heartbeat-failed"] else [])))
  | some w =>
    let tabs := match w.tabs with | some ts => ts | none => []
    let tabCount := tabs.length
    let titles := tabs.filterMap (fun t =>
      match t.title with
      | some ttl => if ttl ≠ "" then some ttl else none
      | none => none)
    let activeTab := match tabs.find? (fun t => t.active) with
      | some t => some t
      | none => tabs.head?
    let titlesStr := String.intercalate " | " titles
    let current_app :=
      "chrome|tabs:" ++ toString tabCount ++ "|titles:" ++ titlesStr
    let d : Details :=
      match activeTab with
      | some t =>
        { current_app := some current_app, focused := some s.isWindowFocused,
          current_page := t.title, current_url := t.url }
      | none =>
        { current_app := some current_app, focused := some s.isWindowFocused }
    let hb := sendHeartbeat s env d
    (hb.1, hb.2.1 ++ (if hb.2.2 then [Action.logError "heartbeat-failed"] else []))

/-- Constant `chrome.windows.WINDOW_ID_NONE`. -/
def WINDOW_ID_NONE : Int := -1

/-- The `chrome.windows.onFocusChanged` listener: recompute the focus flag,
send a lightweight heartbeat (rejection swallowed), and post a minimal
`/active` body gated only on a truthy stored token and a device id. -/
def onFocusChanged (s : EngState) (windowId : Int) (env : Env) :
    EngState × List Action :=
  let focused := decide (windowId ≠ WINDOW_ID_NONE)
  let s1 := { s with isWindowFocused := focused }
  let hb := sendHeartbeat s1 env
    { current_app := some "chrome", focused := some focused }
  let s2 := hb.1
  let gen := getOrCreateDeviceId s2.storage env.fresh env.writeFails
  let s3 := { s2 with storage := gen.2 }
  if truthyOptStr s3.storage.authToken && decide (gen.1 ≠ "") then
    (s3, hb.2.1 ++ [Action.netActive
      { device := gen.1, title := none, url := none, content := none,
        focused := focused }])
  else (s3, hb.2.1)

/-- Messages accepted from the UI layer. -/
inductive Msg where
  | loginSuccess
  | logout
  | serverChanged
deriving DecidableEq, Repr

/-- The `chrome.runtime.onMessage` listeners: `login-success` flips the
flag, fires an immediate report and starts the scheduler; `logout`
notifies the server (best effort), clears the flag, wipes the dedup cache
and stops the scheduler; `SERVER_CHANGED` restarts the scheduler when
authenticated. -/
def handleMessage (s : EngState) (m : Msg) (env : Env) :
    EngState × List Action :=
  match m with
  | .loginSuccess =>
    let s1 := { s with isAuthenticated := true }
    let hb := heartbeatWithActiveTab s1 env
    let s2 := { hb.1 with sched := scheduleHeartbeat hb.1.sched }
    (s2, hb.2)
  | .logout =>
    let tr := sendLogout s
    let s1 := { s with isAuthenticated := false, lastURLMap := [] }
    let s2 := { s1 with sched := clearHeartbeat s1.sched }
    (s2, tr)
  | .serverChanged =>
    if s.isAuthenticated then
      ({ s with sched := scheduleHeartbeat (clearHeartbeat s.sched) }, [])
    else (s, [])

/-- The `chrome.tabs.onRemoved` listener: purge the tab's cache entry. -/
def onTabRemoved (s : EngState) (tabId : Nat) : EngState :=
  { s with lastURLMap := s.lastURLMap.filter (fun p => p.1 ≠ tabId) }

/-! Section: concrete fixtures used by witnesses and counterexamples -/

/-- A canonical lowercase UUID. -/
def uuidA : String := "0123abcd-4567-89ef-0123-456789abcdef"

/-- A second canonical UUID, distinct from `uuidA`. -/
def uuidB : String := "deadbeef-dead-beef-dead-beefdeadbeef"

/-- A durable store carrying a token and a valid device id. -/
def storEx : Storage := { authToken := some "tok", deviceId := some uuidA }

/-- A benign oracle: window query fails, script yields nothing, the
heartbeat fetch succeeds with an empty body. -/
def envA : Env :=
  { fresh := uuidB, writeFails := false, win := none,
    script := ScriptOutcome.noResult, fetchRejects := false, respOk := true,
    respStatus := 200, respText := "", parsed := none, activeParsed := none }

/-! Section: helper lemmas -/

lemma getOrCreateDeviceId_authToken (st : Storage) (fresh : String)
    (wf : Bool) : ((getOrCreateDeviceId st fresh wf).2).authToken = st.authToken := by
  unfold getOrCreateDeviceId
  cases h : st.deviceId <;> dsimp only
  · split <;> rfl
  · split
    · split
      · rfl
      · split <;> rfl
    · split <;> rfl

/-- When unauthenticated or tokenless, `sendHeartbeat` is an immediate
no-op. -/
lemma sendHeartbeat_silent (s : EngState) (env : Env) (d : Details)
    (h : s.isAuthenticated = false ∨ truthyOptStr s.storage.authToken = false) :
    sendHeartbeat s env d = (s, [], false) := by
  unfold sendHeartbeat
  rcases h with h | h
  · simp [h]
  · cases hA : s.isAuthenticated
    · simp [hA]
    · simp [hA, h]

/-- When authenticated with a truthy token, `sendHeartbeat` first emits the
network call for the assembled payload, followed only by error logs. -/
lemma sendHeartbeat_trace_of_auth (s : EngState) (env : Env) (d : Details)
    (hauth : s.isAuthenticated = true)
    (htok : truthyOptStr s.storage.authToken = true) :
    ∃ rest, (sendHeartbeat s env d).2.1 =
        Action.netHeartbeat
          (mkHeartbeatPayload (getOrCreateDeviceId s.storage env.fresh env.writeFails).1 d)
          :: rest ∧
      (∀ a ∈ rest, ∃ t, a = Action.logError t) := by
  unfold sendHeartbeat
  simp [hauth, htok]
  split
  · exact ⟨[Action.logError "heartbeat-request",
      Action.logError "heartbeat-unexpected"], by simp⟩
  · split
    · exact ⟨[Action.logError "heartbeat-request",
        Action.logError "heartbeat-unexpected"], by simp⟩
    · exact ⟨[], by simp⟩

/-- Lemma: `sendHeartbeat` only ever rewrites the storage field, and never the
token. -/
lemma sendHeartbeat_state (s : EngState) (env : Env) (d : Details) :
    ∃ st, (sendHeartbeat s env d).1 = { s with storage := st } ∧
      st.authToken = s.storage.authToken := by
  unfold sendHeartbeat
  split
  · exact ⟨s.storage, rfl, rfl⟩
  · split
    · exact ⟨s.storage, rfl, rfl⟩
    · refine ⟨(getOrCreateDeviceId s.storage env.fresh env.writeFails).2, ?_,
        getOrCreateDeviceId_authToken _ _ _⟩
      split <;> simp
      split <;> simp

/-- Lemma: `heartbeatWithActiveTab` only ever rewrites the storage field, and
never the token. -/
lemma heartbeatWithActiveTab_state (s : EngState) (env : Env) :
    ∃ st, (heartbeatWithActiveTab s env).1 = { s with storage := st } ∧
      st.authToken = s.storage.authToken := by
  unfold heartbeatWithActiveTab
  cases h : env.win with
  | none => simpa using sendHeartbeat_state s env _
  | some w => simpa using sendHeartbeat_state s env _

/-- The content chain opens with the script injection. -/
lemma contentChain_head (s : EngState) (tabId : Nat) (tab : Tab)
    (u : String) (env : Env) :
    ∃ rest, (contentChain s tabId tab u env).2 = Action.execScript tabId :: rest := by
  unfold contentChain
  cases env.script <;> simp
  split <;> simp

/-! Section: claim theorems -/

/-- Claim C3, counterexample: a stored device id padded with whitespace
does **not** match the 8-4-4-4-12 UUID shape, yet `getOrCreateDeviceId`
does not treat it as absent: it resolves with the trimmed stored value and
persists nothing, instead of generating and persisting the fresh UUID. -/
theorem deviceId_untrimmed_store_counterexample :
    matchesUuidShape (" " ++ uuidA ++ " ") = false ∧
    getOrCreateDeviceId
        { authToken := none, deviceId := some (" " ++ uuidA ++ " ") }
        uuidB false =
      (uuidA, { authToken := none, deviceId := some (" " ++ uuidA ++ " ") }) ∧
    uuidA ≠ uuidB := by decide

/-- Claim C3 (amended): the stored value is first trimmed; a stored value
whose **trimmed** form matches the 8-4-4-4-12 hexadecimal UUID shape
(case-insensitive) is accepted (resolving with the trimmed form), anything
else is treated as absent and replaced by a fresh persisted UUID; and, the
write succeeding, two calls in the same session resolve to the same
value. -/
theorem getOrCreateDeviceId_spec (st : Storage) (f1 f2 : String)
    (hshape : matchesUuidShape f1 = true) (htrim : jsTrim f1 = f1) :
    (∀ raw, st.deviceId = some raw → raw ≠ "" →
      matchesUuidShape (jsTrim raw) = true →
      getOrCreateDeviceId st f1 false = (jsTrim raw, st)) ∧
    ((∀ raw, st.deviceId = some raw →
        raw = "" ∨ matchesUuidShape (jsTrim raw) = false) →
      getOrCreateDeviceId st f1 false = (f1, { st with deviceId := some f1 })) ∧
    (getOrCreateDeviceId (getOrCreateDeviceId st f1 false).2 f2 false).1 =
      (getOrCreateDeviceId st f1 false).1 := by
  have hne : f1 ≠ "" := by
    intro h
    rw [h] at hshape
    exact absurd hshape (by decide)
  refine ⟨?_, ?_, ?_⟩
  · intro raw hraw hrne hm
    simp [getOrCreateDeviceId, hraw, hrne, hm]
  · intro h
    cases hd : st.deviceId with
    | none => simp [getOrCreateDeviceId, hd]
    | some raw =>
      rcases h raw hd with h1 | h1 <;> simp [getOrCreateDeviceId, hd, h1]
  · cases hd : st.deviceId with
    | none =>
      simp [getOrCreateDeviceId, hd, hne, htrim, hshape]
    | some raw =>
      by_cases hrne : raw = ""
      · simp [getOrCreateDeviceId, hd, hrne, hne, htrim, hshape]
      · by_cases hm : matchesUuidShape (jsTrim raw) = true
        · simp [getOrCreateDeviceId, hd, hrne, hm]
        · simp [getOrCreateDeviceId, hd, hrne, hm, hne, htrim, hshape]

/-- Claim C3, witness: two calls on an empty store resolve to the same
value. -/
theorem getOrCreateDeviceId_spec_witness :
    (getOrCreateDeviceId
        ((getOrCreateDeviceId { authToken := none, deviceId := none }
          uuidA false).2) uuidB false).1 =
      (getOrCreateDeviceId { authToken := none, deviceId := none }
        uuidA false).1 :=
  (getOrCreateDeviceId_spec { authToken := none, deviceId := none }
    uuidA uuidB (by decide) (by decide)).2.2

/-- Claim C8: when no acceptable id is stored and the durable write of the
freshly generated id fails, `getOrCreateDeviceId` still resolves with the
fresh value (the store left untouched). -/
theorem deviceId_write_failure_still_resolves (st : Storage) (fresh : String)
    (habsent : ∀ raw, st.deviceId = some raw →
      raw = "" ∨ matchesUuidShape (jsTrim raw) = false) :
    getOrCreateDeviceId st fresh true = (fresh, st) := by
  cases hd : st.deviceId with
  | none => simp [getOrCreateDeviceId, hd]
  | some raw =>
    rcases habsent raw hd with h1 | h1 <;> simp [getOrCreateDeviceId, hd, h1]

/-- Claim C8, witness: write failure over an empty store still resolves
with the fresh UUID. -/
theorem deviceId_write_failure_witness :
    getOrCreateDeviceId { authToken := none, deviceId := none } uuidA true =
      (uuidA, { authToken := none, deviceId := none }) :=
  deviceId_write_failure_still_resolves _ uuidA (by intro raw h; cases h)

/-- Claim C5: a notification is rendered for a parsed `/active` response
iff `show_notification` is truthy and the `response` field is a string
whose trimmed value is non-empty; in particular a whitespace-only
`response` renders nothing. -/
theorem active_notification_iff (data : JsVal) :
    ((notificationFor data).isSome ↔
      ((data.getField "show_notification").truthy = true ∧
       ∃ s, data.getField "response" = JsVal.vStr s ∧ jsTrim s ≠ "")) ∧
    notificationFor
      (JsVal.vObj [("show_notification", JsVal.vBool true),
                   ("response", JsVal.vStr "  ")]) = none := by
  constructor
  · constructor
    · intro h
      unfold notificationFor at h
      by_cases hc : shouldShowNotification data = true
      · unfold shouldShowNotification at hc
        simp only [Bool.and_eq_true, decide_eq_true_eq] at hc
        obtain ⟨⟨⟨⟨_, hshow⟩, htr⟩, hstr⟩, htrim⟩ := hc
        cases hresp : data.getField "response" with
        | vStr s =>
          refine ⟨hshow, s, rfl, ?_⟩
          rw [hresp] at htrim
          exact htrim
        | vUndefined => rw [hresp] at hstr; simp [JsVal.isStringVal] at hstr
        | vNull => rw [hresp] at hstr; simp [JsVal.isStringVal] at hstr
        | vBool b => rw [hresp] at hstr; simp [JsVal.isStringVal] at hstr
        | vNum n => rw [hresp] at hstr; simp [JsVal.isStringVal] at hstr
        | vObj fs => rw [hresp] at hstr; simp [JsVal.isStringVal] at hstr
      · simp [hc] at h
    · rintro ⟨hshow, s, hresp, htrim⟩
      have hdata : data.truthy = true := by
        cases data with
        | vObj fs => rfl
        | vUndefined => simp [JsVal.getField] at hresp
        | vNull => simp [JsVal.getField] at hresp
        | vBool b => simp [JsVal.getField] at hresp
        | vNum n => simp [JsVal.getField] at hresp
        | vStr t => simp [JsVal.getField] at hresp
      have hsne : s ≠ "" := by
        intro h
        rw [h] at htrim
        exact htrim (by decide)
      have hstr_truthy : (JsVal.vStr s).truthy = true := by
        simp [JsVal.truthy, hsne]
      have hc : shouldShowNotification data = true := by
        unfold shouldShowNotification
        rw [hresp]
        simp [hdata, hshow, hstr_truthy, JsVal.isStringVal, JsVal.asString,
          htrim]
      simp [notificationFor, hc]
  · decide

/-- Claim C5, witness: a truthy `show_notification` with a non-blank
`response` does render. -/
theorem active_notification_witness :
    (notificationFor
      (JsVal.vObj [("show_notification", JsVal.vBool true),
                   ("response", JsVal.vStr " hi ")])).isSome = true :=
  ((active_notification_iff _).1).2 ⟨rfl, " hi ", rfl, by decide⟩

/-- Claim C7: on a success HTTP status with a non-empty body that fails to
parse, the heartbeat resolves with the generic success value instead of an
error; on a non-success status it throws a message carrying both the
status and the response body text. -/
theorem heartbeatResponse_spec (status : Nat) (text : String)
    (parsed : Option JsVal) :
    (text ≠ "" → parsed = none →
      processHeartbeatResponse true status text parsed =
        Except.ok (JsVal.vObj [("success", JsVal.vBool true)])) ∧
    (processHeartbeatResponse false status text parsed =
      Except.error (httpErrorMsg status text)) ∧
    httpErrorMsg status text =
      "HTTP error! status: " ++ toString status ++ ", response: " ++ text := by
  refine ⟨?_, ?_, rfl⟩
  · intro ht hp
    simp [processHeartbeatResponse, ht, hp]
  · simp [processHeartbeatResponse]

/-- Claim C7, witness: status 500 with body `nope` throws the
descriptive message; status 200 with unparseable body `nope` resolves
with the generic success value. -/
theorem heartbeatResponse_witness :
    processHeartbeatResponse true 500 "nope" none =
      Except.ok (JsVal.vObj [("success", JsVal.vBool true)]) ∧
    processHeartbeatResponse false 500 "nope" none =
      Except.error "HTTP error! status: 500, response: nope" :=
  ⟨(heartbeatResponse_spec 500 "nope" none).1 (by decide) rfl,
   by
    have h := (heartbeatResponse_spec 500 "nope" none).2.1
    rw [h]
    exact congrArg Except.error (by decide)⟩

/-- Scheduler invariant: the set of live host intervals is exactly what
the stored handle says, and the alarm is armed exactly while running. -/
def SchedInv (s : SchedState) : Prop :=
  match s.heartbeatIntervalId with
  | some h => s.activeIntervals = [h] ∧ s.alarmArmed = true
  | none => s.activeIntervals = [] ∧ s.alarmArmed = false

lemma schedInv_init : SchedInv initSched := by
  simp [SchedInv, initSched]

lemma schedInv_step (s : SchedState) (op : SchedOp) (h : SchedInv s) :
    SchedInv (applySchedOp s op) := by
  cases op with
  | start =>
    unfold applySchedOp scheduleHeartbeat
    cases hh : s.heartbeatIntervalId with
    | none =>
      simp only [SchedInv, hh] at h
      simp [SchedInv, hh, h.1]
    | some k =>
      simp only [SchedInv, hh] at h
      simp [SchedInv, hh, h.1]
  | stop =>
    unfold applySchedOp clearHeartbeat
    cases hh : s.heartbeatIntervalId with
    | none =>
      simp only [SchedInv, hh] at h
      simp [SchedInv, hh, h.1]
    | some k =>
      simp only [SchedInv, hh] at h
      simp [SchedInv, hh, h.1]

lemma schedInv_reach (ops : List SchedOp) :
    SchedInv (applySchedOps initSched ops) := by
  have key : ∀ (l : List SchedOp) (s : SchedState), SchedInv s →
      SchedInv (applySchedOps s l) := by
    intro l
    induction l with
    | nil => intro s hs; exact hs
    | cons op tl ih =>
      intro s hs
      exact ih (applySchedOp s op) (schedInv_step s op hs)
  exact key ops initSched schedInv_init

/-- Claim C4: along every sequence of start/stop calls, at most one live
in-memory interval exists at any time; a start while already running
leaves the fine tick alone; a stop empties the stored handle; and a stop
in a reachable not-started state changes nothing. -/
theorem scheduler_start_idempotent :
    (∀ ops : List SchedOp,
      (applySchedOps initSched ops).activeIntervals.length ≤ 1) ∧
    (∀ (s : SchedState) (h : Nat), s.heartbeatIntervalId = some h →
      (scheduleHeartbeat s).heartbeatIntervalId = some h ∧
      (scheduleHeartbeat s).activeIntervals = s.activeIntervals) ∧
    (∀ s : SchedState, (clearHeartbeat s).heartbeatIntervalId = none) ∧
    (∀ ops : List SchedOp,
      (applySchedOps initSched ops).heartbeatIntervalId = none →
      clearHeartbeat (applySchedOps initSched ops) = applySchedOps initSched ops) := by
  refine ⟨?_, ?_, ?_, ?_⟩
  · intro ops
    have h := schedInv_reach ops
    unfold SchedInv at h
    cases hh : (applySchedOps initSched ops).heartbeatIntervalId <;>
      rw [hh] at h <;> simp [h.1]
  · intro s h hh
    unfold scheduleHeartbeat
    simp [hh]
  · intro s
    unfold clearHeartbeat
    cases hh : s.heartbeatIntervalId <;> simp [hh]
  · intro ops hnone
    have h := schedInv_reach ops
    unfold SchedInv at h
    rw [hnone] at h
    unfold clearHeartbeat
    rcases h with ⟨hact, halarm⟩
    cases hs : applySchedOps initSched ops with
    | mk a hid act nxt =>
      rw [hs] at hnone halarm
      simp at hnone halarm
      simp [hnone, halarm]

/-- Claim C4, witness: starting while a handle is stored keeps the handle
and the live interval set. -/
theorem scheduler_start_idempotent_witness :
    (scheduleHeartbeat
      { alarmArmed := true, heartbeatIntervalId := some 5,
        activeIntervals := [5], nextTimerId := 6 }).heartbeatIntervalId = some 5 :=
  (scheduler_start_idempotent.2.1
    { alarmArmed := true, heartbeatIntervalId := some 5,
      activeIntervals := [5], nextTimerId := 6 } 5 rfl).1

/-- Tab fixture visiting `https://a.example/`. -/
def tabA : Tab := { url := some "https://a.example/", title := some "A" }

/-- Tab fixture visiting `https://b.example/`. -/
def tabB : Tab := { url := some "https://b.example/", title := some "B" }

/-- An authenticated engine state with an empty dedup cache. -/
def sAuthEx : EngState :=
  { isAuthenticated := true, isWindowFocused := true, lastURLMap := [],
    sched := initSched, storage := storEx }

/-- First navigation of the a, b, a scenario on tab 7. -/
def abaStep1 : EngState × List Action := processTabUpdate sAuthEx 7 tabA envA

/-- Second navigation of the a, b, a scenario on tab 7. -/
def abaStep2 : EngState × List Action := processTabUpdate abaStep1.1 7 tabB envA

/-- Third navigation (revisit of a) of the a, b, a scenario on tab 7. -/
def abaStep3 : EngState × List Action := processTabUpdate abaStep2.1 7 tabA envA

/-- Trace shape of a reporting `processTabUpdate` invocation. -/
lemma processTabUpdate_report_trace (s : EngState) (env : Env) (tabId : Nat)
    (tab : Tab) (u : String) (hauth : s.isAuthenticated = true)
    (hurl : tab.url = some u)
    (hcond : u ≠ "" ∧ some u ≠ mapGet s.lastURLMap tabId) :
    ∃ rest, (processTabUpdate s tabId tab env).2 =
        Action.cacheWrite tabId u :: rest ∧
      Action.execScript tabId ∈ rest ∧
      (truthyOptStr s.storage.authToken = true →
        ∃ p, Action.netHeartbeat p ∈ rest) := by
  unfold processTabUpdate
  simp only [hauth, Bool.not_true, Bool.false_eq_true, if_false, hurl]
  rw [if_pos hcond]
  refine ⟨_, rfl, ?_, ?_⟩
  · apply List.mem_append_right
    obtain ⟨r2, hr2⟩ := contentChain_head _ tabId tab u env
    rw [hr2]
    exact List.mem_cons_self _ _
  · intro htok
    obtain ⟨r1, hr1, -⟩ := sendHeartbeat_trace_of_auth
      { isAuthenticated := true, isWindowFocused := s.isWindowFocused,
        lastURLMap := mapSet s.lastURLMap tabId u, sched := s.sched,
        storage := s.storage } env
      { current_app := some "chrome", current_page := tab.title,
        current_url := some u, focused := some s.isWindowFocused }
      rfl htok
    rw [hr1]
    exact ⟨_, List.mem_append_left _ (List.mem_cons_self _ _)⟩

/-- Silent branch of `processTabUpdate`: no report when the URL is absent,
empty or unchanged. -/
lemma processTabUpdate_silent (s : EngState) (env : Env) (tabId : Nat)
    (tab : Tab)
    (h : tab.url = none ∨
      ∃ u, tab.url = some u ∧ ¬(u ≠ "" ∧ some u ≠ mapGet s.lastURLMap tabId)) :
    (processTabUpdate s tabId tab env).2 = [] := by
  unfold processTabUpdate
  cases hA : s.isAuthenticated
  · simp
  · rcases h with h | ⟨u, hu, hcond⟩
    · simp [h]
    · simp only [Bool.not_true, Bool.false_eq_true, if_false, hu]
      rw [if_neg hcond]

/-- Claim C1: while authenticated (token resolvable), one `processTabUpdate`
call issues a report — dedup-cache write, heartbeat send, activity-chain
start — iff the tab URL is truthy and differs from the cache entry for
that tab (absent entries differ from everything); an absent URL reports
nothing; and in the a, b, a scenario on one tab all three navigations
report. -/
theorem processTabUpdate_report_iff (s : EngState) (env : Env) (tabId : Nat)
    (tab : Tab) (hauth : s.isAuthenticated = true)
    (htok : truthyOptStr s.storage.authToken = true) :
    (∀ u, tab.url = some u →
      ((Action.cacheWrite tabId u ∈ (processTabUpdate s tabId tab env).2 ∧
        (∃ p, Action.netHeartbeat p ∈ (processTabUpdate s tabId tab env).2) ∧
        Action.execScript tabId ∈ (processTabUpdate s tabId tab env).2) ↔
       (u ≠ "" ∧ some u ≠ mapGet s.lastURLMap tabId))) ∧
    (tab.url = none → (processTabUpdate s tabId tab env).2 = []) ∧
    (Action.cacheWrite 7 "https://a.example/" ∈ abaStep1.2 ∧
     Action.cacheWrite 7 "https://b.example/" ∈ abaStep2.2 ∧
     Action.cacheWrite 7 "https://a.example/" ∈ abaStep3.2) := by
  refine ⟨?_, ?_, by decide⟩
  · intro u hu
    constructor
    · rintro ⟨hcw, -, -⟩
      by_contra hcond
      have hnil := processTabUpdate_silent s env tabId tab
        (Or.inr ⟨u, hu, hcond⟩)
      rw [hnil] at hcw
      exact List.not_mem_nil _ hcw
    · intro hcond
      obtain ⟨rest, htr, hscript, hhb⟩ :=
        processTabUpdate_report_trace s env tabId tab u hauth hu hcond
      rw [htr]
      obtain ⟨p, hp⟩ := hhb htok
      exact ⟨List.mem_cons_self _ _, ⟨p, List.mem_cons_of_mem _ hp⟩,
        List.mem_cons_of_mem _ hscript⟩
  · intro hu
    exact processTabUpdate_silent s env tabId tab (Or.inl hu)

/-- Claim C1, witness: the iff at a concrete first observation. -/
theorem processTabUpdate_report_iff_witness :
    Action.cacheWrite 7 "https://a.example/" ∈ abaStep1.2 :=
  (((processTabUpdate_report_iff sAuthEx envA 7 tabA rfl rfl).1
    "https://a.example/" rfl).2 (by decide)).1

/-- Claim C9: in every `processTabUpdate` invocation that decides to
report, the dedup-cache write is the first action of the trace — it
precedes the heartbeat send and the content-extraction-then-submit chain,
both of which sit in the remainder. -/
theorem dedup_write_precedes_sends (s : EngState) (env : Env) (tabId : Nat)
    (tab : Tab) (u : String) (hauth : s.isAuthenticated = true)
    (hurl : tab.url = some u)
    (hcond : u ≠ "" ∧ some u ≠ mapGet s.lastURLMap tabId) :
    ∃ rest, (processTabUpdate s tabId tab env).2 =
        Action.cacheWrite tabId u :: rest ∧
      Action.execScript tabId ∈ rest ∧
      (truthyOptStr s.storage.authToken = true →
        ∃ p, Action.netHeartbeat p ∈ rest) :=
  processTabUpdate_report_trace s env tabId tab u hauth hurl hcond

/-- Claim C9, witness: the concrete first navigation's trace opens with the
cache write. -/
theorem dedup_write_precedes_sends_witness :
    ∃ rest, abaStep1.2 = Action.cacheWrite 7 "https://a.example/" :: rest ∧
      Action.execScript 7 ∈ rest ∧
      (truthyOptStr sAuthEx.storage.authToken = true →
        ∃ p, Action.netHeartbeat p ∈ rest) :=
  dedup_write_precedes_sends sAuthEx envA 7 tabA "https://a.example/" rfl rfl
    (by decide)

/-- An authenticated, tokened `sendHeartbeat` contributes a network call to
any trace it prefixes. -/
lemma net_mem_hb_append (s : EngState) (env : Env) (d : Details)
    (tail : List Action) (hauth : s.isAuthenticated = true)
    (htok : truthyOptStr s.storage.authToken = true) :
    ∃ p, Action.netHeartbeat p ∈ (sendHeartbeat s env d).2.1 ++ tail := by
  obtain ⟨r, hr, -⟩ := sendHeartbeat_trace_of_auth s env d hauth htok
  rw [hr]
  exact ⟨_, List.mem_append_left _ (List.mem_cons_self _ _)⟩

/-- An authenticated, tokened tick emits a heartbeat call whatever the
window query returns. -/
lemma heartbeatWithActiveTab_net_of_auth (s : EngState) (env : Env)
    (hauth : s.isAuthenticated = true)
    (htok : truthyOptStr s.storage.authToken = true) :
    ∃ p, Action.netHeartbeat p ∈ (heartbeatWithActiveTab s env).2 := by
  unfold heartbeatWithActiveTab
  cases hw : env.win with
  | none =>
    dsimp only
    obtain ⟨p, hp⟩ := net_mem_hb_append s env { current_app := some "chrome" }
      (if (sendHeartbeat s env { current_app := some "chrome" }).2.2 then
        [Action.logError "heartbeat-failed"] else []) hauth htok
    exact ⟨p, List.mem_cons_of_mem _ hp⟩
  | some w =>
    dsimp only
    exact net_mem_hb_append s env _ _ hauth htok

/-- State effect of the login handler: flag set, cache and token kept. -/
lemma handleMessage_login_state (s : EngState) (env : Env) :
    (handleMessage s Msg.loginSuccess env).1.isAuthenticated = true ∧
    (handleMessage s Msg.loginSuccess env).1.lastURLMap = s.lastURLMap ∧
    (handleMessage s Msg.loginSuccess env).1.storage.authToken =
      s.storage.authToken := by
  obtain ⟨st, hst, htok⟩ := heartbeatWithActiveTab_state
    { s with isAuthenticated := true } env
  unfold handleMessage
  dsimp only
  rw [hst]
  exact ⟨rfl, rfl, htok⟩

/-- State effect of the logout handler: flag cleared, cache wiped, durable
store untouched. -/
lemma handleMessage_logout_state (s : EngState) (env : Env) :
    (handleMessage s Msg.logout env).1.isAuthenticated = false ∧
    (handleMessage s Msg.logout env).1.lastURLMap = [] ∧
    (handleMessage s Msg.logout env).1.storage = s.storage := by
  unfold handleMessage
  exact ⟨rfl, rfl, rfl⟩

/-- The engine state reached by logging in and back out with a persisted
token: the flag is down again but the durable token remains. -/
def sLoggedOut : EngState :=
  (handleMessage ((handleMessage (initState storEx) Msg.loginSuccess envA).1)
    Msg.logout envA).1

/-- Claim C2, counterexample: in the reachable state obtained by logging in
and back out (the background never erases the stored token), the
authenticated flag is false, yet the focus-change handler performs a
network call (the minimal `/active` post is gated only on the stored token
and device id). -/
theorem focus_net_while_flag_false_counterexample :
    sLoggedOut.isAuthenticated = false ∧
    (onFocusChanged sLoggedOut (-1) envA).2.any isNetCall = true := by
  decide

/-- Claim C2 (amended): while the flag is false, the scheduled tick and the
tab-update path perform no network call and the focus-change handler sends
no heartbeat (its `/active` post, however, is gated only on the stored
token); flipping the flag through a login signal lets the next tick send a
heartbeat. -/
theorem unauthenticated_network_silence (s : EngState) (env : Env)
    (tabId : Nat) (tab : Tab) (wid : Int)
    (hauth : s.isAuthenticated = false) :
    (∀ a ∈ (heartbeatWithActiveTab s env).2, isNetCall a = false) ∧
    (processTabUpdate s tabId tab env).2 = [] ∧
    (∀ p, Action.netHeartbeat p ∉ (onFocusChanged s wid env).2) ∧
    (truthyOptStr s.storage.authToken = true →
      ∃ p, Action.netHeartbeat p ∈
        (heartbeatWithActiveTab
          ((handleMessage s Msg.loginSuccess env).1) env).2) := by
  refine ⟨?_, ?_, ?_, ?_⟩
  · intro a ha
    unfold heartbeatWithActiveTab at ha
    cases hw : env.win with
    | none =>
      rw [hw] at ha
      dsimp only at ha
      rw [sendHeartbeat_silent s env { current_app := some "chrome" }
        (Or.inl hauth)] at ha
      simp at ha
      rw [ha]
      rfl
    | some w =>
      rw [hw] at ha
      dsimp only at ha
      rw [sendHeartbeat_silent s env _ (Or.inl hauth)] at ha
      simp at ha
  · unfold processTabUpdate
    simp [hauth]
  · intro p hp
    unfold onFocusChanged at hp
    dsimp only at hp
    rw [sendHeartbeat_silent
      { s with isWindowFocused := decide (wid ≠ WINDOW_ID_NONE) } env
      { current_app := some "chrome",
        focused := some (decide (wid ≠ WINDOW_ID_NONE)) }
      (Or.inl hauth)] at hp
    split at hp <;> simp at hp
  · intro htok
    have hg := handleMessage_login_state s env
    refine heartbeatWithActiveTab_net_of_auth _ env hg.1 ?_
    rw [hg.2.2]
    exact htok

/-- Claim C2, witness: the tab-update path is silent in the unauthenticated
start state. -/
theorem unauthenticated_silence_witness :
    (processTabUpdate (initState storEx) 1 tabA envA).2 = [] :=
  (unauthenticated_network_silence (initState storEx) envA 1 tabA (-1)
    rfl).2.1

/-- Claim C6: the logout signal wipes every dedup-cache entry and attempts
the best-effort server logout, so any pair reported before logout is
reported again once observed after a subsequent login. -/
theorem logout_clears_dedup (s : EngState) (env1 env2 env3 : Env)
    (tabId : Nat) (url : String) (tab : Tab)
    (hurl : tab.url = some url) (hne : url ≠ "") :
    (handleMessage s Msg.logout env1).1.lastURLMap = [] ∧
    (truthyOptStr s.storage.authToken = true →
      Action.netLogout "browser-chrome" ∈ (handleMessage s Msg.logout env1).2) ∧
    Action.cacheWrite tabId url ∈
      (processTabUpdate
        ((handleMessage ((handleMessage s Msg.logout env1).1)
          Msg.loginSuccess env2).1) tabId tab env3).2 := by
  refine ⟨(handleMessage_logout_state s env1).2.1, ?_, ?_⟩
  · intro htok
    unfold handleMessage sendLogout
    simp [htok]
  · have hl := handleMessage_logout_state s env1
    have hg := handleMessage_login_state ((handleMessage s Msg.logout env1).1)
      env2
    have hcond : url ≠ "" ∧ some url ≠
        mapGet ((handleMessage ((handleMessage s Msg.logout env1).1)
          Msg.loginSuccess env2).1).lastURLMap tabId := by
      refine ⟨hne, ?_⟩
      rw [hg.2.1, hl.2.1]
      simp [mapGet]
    obtain ⟨rest, htr, -, -⟩ := processTabUpdate_report_trace
      ((handleMessage ((handleMessage s Msg.logout env1).1)
        Msg.loginSuccess env2).1) env3 tabId tab url hg.1 hurl hcond
    rw [htr]
    exact List.mem_cons_self _ _

/-- Claim C6, witness: a concrete pair is reported again after logout and
login. -/
theorem logout_clears_dedup_witness :
    Action.cacheWrite 3 "https://a.example/" ∈
      (processTabUpdate
        ((handleMessage ((handleMessage sAuthEx Msg.logout envA).1)
          Msg.loginSuccess envA).1) 3 tabA envA).2 :=
  (logout_clears_dedup sAuthEx envA envA envA 3 "https://a.example/" tabA rfl
    (by decide)).2.2

/-- Claim C10: when the periodic tick cannot resolve the current window, it
logs the error and still sends a fallback heartbeat whose optional details
hold only `current_app = "chrome"` — no page, URL or focus fields — and
any heartbeat failure surfaces as further log entries, never as an
exception to the scheduler. -/
theorem tick_window_error_fallback (s : EngState) (env : Env)
    (hwin : env.win = none) (hauth : s.isAuthenticated = true)
    (htok : truthyOptStr s.storage.authToken = true) :
    ∃ p rest, (heartbeatWithActiveTab s env).2 =
        Action.logError "windows.getCurrent" :: Action.netHeartbeat p :: rest ∧
      p.current_app = some "chrome" ∧ p.current_page = none ∧
      p.current_url = none ∧ p.focused = none ∧
      (∀ a ∈ rest, ∃ t, a = Action.logError t) := by
  unfold heartbeatWithActiveTab
  rw [hwin]
  dsimp only
  obtain ⟨r, hr, hlog⟩ := sendHeartbeat_trace_of_auth s env
    { current_app := some "chrome" } hauth htok
  rw [hr]
  refine ⟨mkHeartbeatPayload
      (getOrCreateDeviceId s.storage env.fresh env.writeFails).1
      { current_app := some "chrome" },
    r ++ (if (sendHeartbeat s env { current_app := some "chrome" }).2.2
      then [Action.logError "heartbeat-failed"] else []),
    by simp, by simp [mkHeartbeatPayload, optIfTruthy], rfl, rfl, rfl, ?_⟩
  intro a ha
  rcases List.mem_append.mp ha with h | h
  · exact hlog a h
  · split at h
    · simp at h
      exact ⟨_, h⟩
    · simp at h

/-- Claim C10, witness: the fallback fires at a concrete authenticated
state with a failing window query. -/
theorem tick_window_error_fallback_witness :
    ∃ p rest, (heartbeatWithActiveTab sAuthEx envA).2 =
        Action.logError "windows.getCurrent" :: Action.netHeartbeat p :: rest ∧
      p.current_app = some "chrome" ∧ p.current_page = none ∧
      p.current_url = none ∧ p.focused = none ∧
      (∀ a ∈ rest, ∃ t, a = Action.logError t) :=
  tick_window_error_fallback sAuthEx envA rfl rfl rfl

end ChromeExt
